import Mathlib

/-!
Verification development for the robopages CLI (`src/robopages/cli.py`).

The CLI surface (`cli.py`) is embedded directly from the source.  The core
registry/dispatcher module (`robopages/models.py`) is not part of the given
sources; its operations (`Robook.from_path` filtering, `find_function`,
`to_openai`, `process`) are modelled from the specification, as marked on
each definition.
-/

namespace Robopages

/-- A declared parameter of a Function: declared type, description, required
flag and optional default value. -/
structure Parameter where
  type : String
  description : String
  required : Bool
  default : Option String := none
deriving DecidableEq, Repr

/-- A callable capability: description, ordered mapping from parameter name
to Parameter, and an execution template string with dollar-brace
placeholders. -/
structure Function where
  description : String
  parameters : List (String × Parameter)
  execution : String
deriving DecidableEq, Repr

/-- A Page: named, described unit grouping related Functions, with an
ordered sequence of category labels and a name-to-Function mapping. -/
structure Robopage where
  name : String
  description : String
  categories : List String
  functions : List (String × Function)
deriving DecidableEq, Repr

/-- The aggregate registry: a mapping from Page key (derived from source
path) to Page.  Immutable after construction. -/
structure Robook where
  pages : List (String × Robopage)
deriving DecidableEq, Repr

/-- The characters of a string, lowercased. -/
def lowerList (s : String) : List Char :=
  s.toList.map Char.toLower

/-- Case-insensitive substring test: does `hay` contain `needle`, ignoring
case? -/
def containsCI (hay needle : String) : Bool :=
  decide (lowerList needle <:+: lowerList hay)

/-- Modelled from the spec: the load-time filter is a case-insensitive
substring match applied against the Page name or any of its category
labels; an absent filter keeps every Page. -/
def matchesFilter (flt : Option String) (page : Robopage) : Bool :=
  match flt with
  | none => true
  | some f => containsCI page.name f || page.categories.any (fun c => containsCI c f)

/-- Modelled from the spec: a Page key/Page list restricted to the Pages the
filter keeps. -/
def filterPages (flt : Option String) (pages : List (String × Robopage)) :
    List (String × Robopage) :=
  pages.filter (fun kp => matchesFilter flt kp.2)

/-- All function names of a page list, pages in order, functions in
definition order. -/
def allFunctionNames (pages : List (String × Robopage)) : List String :=
  pages.flatMap (fun kp => kp.2.functions.map (fun nf => nf.1))

/-- Modelled from the spec: Book construction (the pure part of
`Robook.from_path`, given the Pages the Manifest Loader produced): apply
the filter, then fail with a duplicate-function error if the same function
name appears twice post-filter, otherwise index the kept Pages. -/
def buildBook (flt : Option String) (pages : List (String × Robopage)) :
    Except String Robook :=
  let kept := filterPages flt pages
  if (allFunctionNames kept).Nodup then .ok ⟨kept⟩
  else .error "duplicate function name"

/-- Modelled from the spec: exact-match lookup of a function name across the
Book's Pages, in Page order then Function order; no fuzzy matching. -/
def Robook.find_function (b : Robook) (name : String) : Option Function :=
  b.pages.findSome? (fun kp => kp.2.functions.lookup name)

/-- Stable iteration over all (function name, Function) pairs of the Book,
ordered by Page insertion order then Function insertion order. -/
def Robook.functions (b : Robook) : List (String × Function) :=
  b.pages.flatMap (fun kp => kp.2.functions)

/-- One property entry of an OpenAI-dialect parameter object. -/
structure OpenAIParamSchema where
  type : String
  description : String
deriving DecidableEq, Repr

/-- The inner function object of an OpenAI-dialect tool description. -/
structure OpenAIFunctionDef where
  name : String
  description : String
  parametersType : String
  properties : List (String × OpenAIParamSchema)
  required : List String
deriving DecidableEq, Repr

/-- One OpenAI-dialect tool description entry. -/
structure OpenAITool where
  type : String
  function : OpenAIFunctionDef
deriving DecidableEq, Repr

/-- Modelled from the spec: the OpenAI dialect's recognized primitive types;
an unrecognized declared type degrades permissively to the string type. -/
def primitiveType (t : String) : String :=
  if t = "string" || t = "integer" || t = "number" || t = "boolean" then t
  else "string"

/-- Modelled from the spec: translation of one Function into the OpenAI
function-calling dialect. -/
def Function.to_openai (name : String) (f : Function) : OpenAITool :=
  { type := "function"
    function :=
      { name := name
        description := f.description
        parametersType := "object"
        properties := f.parameters.map
          (fun np => (np.1, ⟨primitiveType np.2.type, np.2.description⟩))
        required := (f.parameters.filter (fun np => np.2.required)).map
          (fun np => np.1) } }

/-- Modelled from the spec: `toSchema("openai")` over the whole Book, one
entry per Function, in stable iteration order. -/
def Robook.to_openai (b : Robook) : List OpenAITool :=
  b.functions.map (fun nf => Function.to_openai nf.1 nf.2)

/-- A requested function invocation: function name and a mapping from
argument name to (string) value. -/
structure FunctionCall where
  name : String
  arguments : List (String × String)
deriving DecidableEq, Repr

/-- A FunctionCall plus an optional correlation identifier. -/
structure Robocall where
  function : FunctionCall
  id : Option String := none
deriving DecidableEq, Repr

/-- The status of a dispatcher Result: ok, skipped, or an error kind. -/
inductive ResultStatus where
  | ok
  | skipped
  | notFound
  | validationError
  | executionError
  | timedOut
deriving DecidableEq, Repr

/-- The Result for one input Robocall: a content string (captured output or
error description) and a status. -/
structure CallResult where
  content : String
  status : ResultStatus
deriving DecidableEq, Repr

/-- Outcome of running one external process: completion with captured output
and exit code, failure to start, or timeout. -/
inductive ExecOutcome where
  | completed (output : String) (exitCode : Int)
  | failedToStart (message : String)
  | timedOut
deriving DecidableEq, Repr

/-- The Dispatcher's external collaborators: the process runner and the
Interactive Gate (given the bound command and the Function description). -/
structure ExecEnv where
  exec : String → ExecOutcome
  confirm : String → String → Bool

/-- Value of an argument by name, the empty string when absent. -/
def lookupArg (args : List (String × String)) (n : String) : String :=
  (args.lookup n).getD ""

/-- Chars of a placeholder name up to the first closing brace, with the rest
after the brace; `none` when no closing brace follows. -/
def splitAtClose : List Char → Option (List Char × List Char)
  | [] => none
  | c :: rest =>
    if c = '\x7d' then some ([], rest)
    else
      match splitAtClose rest with
      | some (n, r) => some (c :: n, r)
      | none => none

/-- Modelled from the spec: substitute each dollar-brace placeholder in the
template's characters with its argument's value (the empty string for an
argument still empty); text without a well-formed placeholder is kept. -/
def substChars (args : List (String × String)) : List Char → List Char
  | [] => []
  | c :: rest =>
    if c = '$' then
      match rest with
      | [] => [c]
      | b :: rest2 =>
        if b = '\x7b' then
          match h : splitAtClose rest2 with
          | some (nameChars, after) =>
            (lookupArg args (String.mk nameChars)).toList ++ substChars args after
          | none => c :: b :: substChars args rest2
        else c :: substChars args (b :: rest2)
    else c :: substChars args rest
termination_by l => l.length
decreasing_by
  all_goals simp only [List.length_cons]
  · have key : ∀ (l n r : List Char), splitAtClose l = some (n, r) → r.length < l.length := by
      intro l
      induction l with
      | nil => intro n r hs; simp [splitAtClose] at hs
      | cons x xs ih =>
        intro n r hs
        simp only [splitAtClose] at hs
        by_cases hx : x = '\x7d'
        · rw [if_pos hx] at hs
          simp only [Option.some.injEq, Prod.mk.injEq] at hs
          obtain ⟨hs1, hs2⟩ := hs
          subst hs2
          simp
        · rw [if_neg hx] at hs
          cases hsp : splitAtClose xs with
          | none => rw [hsp] at hs; cases hs
          | some p =>
            obtain ⟨n1, r1⟩ := p
            rw [hsp] at hs
            simp only [Option.some.injEq, Prod.mk.injEq] at hs
            obtain ⟨hs1, hs2⟩ := hs
            subst hs2
            have := ih n1 r1 hsp
            simp only [List.length_cons]
            omega
    have := key _ _ _ h
    omega
  · omega
  · omega
  · omega

/-- Modelled from the spec: supplied arguments, with each missing Parameter
resolved to its declared default or an empty value (supplied values take
precedence). -/
def withDefaults (f : Function) (supplied : List (String × String)) :
    List (String × String) :=
  supplied ++ f.parameters.filterMap (fun np =>
    match supplied.lookup np.1 with
    | some _ => none
    | none => some (np.1, np.2.default.getD ""))

/-- Modelled from the spec: bind the call's arguments into the Function's
execution template. -/
def bindTemplate (f : Function) (supplied : List (String × String)) : String :=
  String.mk (substChars (withDefaults f supplied) f.execution.toList)

/-- Modelled from the spec: argument validation fails exactly when some
required Parameter is missing from the supplied arguments. -/
def validationFailed (f : Function) (args : List (String × String)) : Bool :=
  f.parameters.any (fun np => np.2.required && (args.lookup np.1).isNone)

/-- Modelled from the spec: dispatch of a single Robocall — resolve,
validate, bind, consult the Interactive Gate when interactive, execute; each
failure short-circuits to a Result carrying its error or skip status. -/
def processOne (env : ExecEnv) (b : Robook) (interactive : Bool)
    (call : Robocall) : CallResult :=
  match b.find_function call.function.name with
  | none => ⟨"function " ++ call.function.name ++ " not found", .notFound⟩
  | some f =>
    if validationFailed f call.function.arguments then
      ⟨"missing required parameter", .validationError⟩
    else
      let cmd := bindTemplate f call.function.arguments
      if interactive && !(env.confirm cmd f.description) then
        ⟨"", .skipped⟩
      else
        match env.exec cmd with
        | .completed out _ => ⟨out, .ok⟩
        | .failedToStart msg => ⟨msg, .executionError⟩
        | .timedOut => ⟨"timeout", .timedOut⟩

/-- Modelled from the spec: `process` over an ordered batch, strictly
sequential, one Result per input call. -/
def Robook.process (b : Robook) (env : ExecEnv) (calls : List Robocall)
    (interactive : Bool) : List CallResult :=
  calls.map (fun c => processOne env b interactive c)

/-- Termination behaviour of an embedded Python command body: a returned
value, a raised exception, or blocking forever on console input. -/
inductive PyOutcome (α : Type) where
  | done (a : α)
  | raised (message : String)
  | blocked
deriving DecidableEq, Repr

/-- Whether the outcome is an uncaught raised exception. -/
def PyOutcome.isRaised {α : Type} : PyOutcome α → Bool
  | .raised _ => true
  | _ => false

/-- The prompt loop of `cli.run` for one parameter (`cli.py` lines
274-280): consume console responses until a non-empty value is entered,
stopping early with no value when the parameter is optional and an empty
value was entered; `none` when input is exhausted (the loop blocks). -/
def collectOne (required : Bool) : List String → Option (Option String × List String)
  | [] => none
  | v :: rest =>
    if v ≠ "" then some (some v, rest)
    else if required then collectOne required rest
    else some (none, rest)

/-- The argument-collection loop of `cli.run` (`cli.py` lines 273-280):
prompt for each parameter in order, adding an entry only when a non-empty
value was entered. -/
def collectArgs : List (String × Parameter) → List String →
    Option (List (String × String) × List String)
  | [], responses => some ([], responses)
  | np :: rest, responses =>
    match collectOne np.2.required responses with
    | none => none
    | some (entry, responses1) =>
      match collectArgs rest responses1 with
      | none => none
      | some (args, responses2) =>
        some ((match entry with
               | some v => [(np.1, v)]
               | none => []) ++ args, responses2)

/-- Observable behaviour of one `cli.run` invocation: the call batch and
interactive flag handed to `process` (when reached), the Result sequence
printed, and the error message printed by the `except` branch (if any). -/
structure RunResult where
  processed : Option (List Robocall × Bool)
  results : Option (List CallResult)
  errorMsg : Option String
deriving DecidableEq, Repr

/-- The `try` body of `cli.run` (`cli.py` lines 262-283): load the Book,
resolve the function name (raising when not found), interactively collect
argument values, then hand a one-element batch to `process` with
`interactive = not auto`. -/
def run_body (env : ExecEnv) (loadResult : Except String Robook)
    (function_name : String) (auto : Bool) (responses : List String) :
    PyOutcome RunResult :=
  match loadResult with
  | .error e => .raised e
  | .ok book =>
    match book.find_function function_name with
    | none => .raised ("function " ++ function_name ++ " not found")
    | some f =>
      match collectArgs f.parameters responses with
      | none => .blocked
      | some (args, _) =>
        let call : Robocall := { function := { name := function_name, arguments := args } }
        .done { processed := some ([call], !auto)
                results := some (book.process env [call] (!auto))
                errorMsg := none }

/-- `cli.run` (`cli.py` lines 239-285): the whole body runs inside
`try`/`except Exception`, so any raised error is rendered as a printed
message and the command returns normally. -/
def run (env : ExecEnv) (loadResult : Except String Robook)
    (function_name : String) (auto : Bool) (responses : List String) :
    PyOutcome RunResult :=
  match run_body env loadResult function_name auto responses with
  | .raised e => .done { processed := none, results := none, errorMsg := some e }
  | other => other

/-- Module-level mutable state of the `robopages.api` module: its `book`
attribute. -/
structure ApiModuleState where
  book : Option Robook
deriving DecidableEq, Repr

/-- The arguments `cli.serve` passes to `uvicorn.run`: the module-level app
reference plus host and port; `appBookArg` records a Book handed to the app
as an explicit argument, if any. -/
structure UvicornRunArgs where
  host : String
  port : Nat
  appBookArg : Option Robook
deriving DecidableEq, Repr

/-- `cli.serve` (`cli.py` lines 226-236): assign the loaded Book to the
`api` module's `book` attribute, then start `uvicorn` on `api.app` passing
host and port only (no Book argument). -/
def serve (loaded : Robook) (apiState : ApiModuleState) (address : String)
    (port : Nat) : ApiModuleState × UvicornRunArgs :=
  ({ apiState with book := some loaded },
   { host := address, port := port, appBookArg := none })

/-- Observable output of `cli.to_json`: the serialized text saved to the
output file, or printed. -/
inductive ToJsonEffect where
  | savedToFile (path text : String)
  | printedText (text : String)
deriving DecidableEq, Repr

/-- The text a `ToJsonEffect` carries. -/
def ToJsonEffect.text : ToJsonEffect → String
  | .savedToFile _ t => t
  | .printedText t => t

/-- `cli.to_json` (`cli.py` lines 148-186): build the Book from the given
pages and filter, translate with the OpenAI dialect, serialize (`dumps`
stands for `json.dumps` with its indentation setting), then write to the
output file or print. -/
def to_json (dumps : List OpenAITool → String) (flt : Option String)
    (pages : List (String × Robopage)) (output : Option String) :
    PyOutcome ToJsonEffect :=
  match buildBook flt pages with
  | .error e => .raised e
  | .ok book =>
    let data := dumps book.to_openai
    match output with
    | some file => .done (.savedToFile file data)
    | none => .done (.printedText data)

/-- Sample required parameter, for concrete evaluations. -/
def sampleRequiredParam : Parameter :=
  { type := "string", description := "target host", required := true }

/-- Sample optional parameter with a default, for concrete evaluations. -/
def sampleOptionalParam : Parameter :=
  { type := "wat", description := "extra option", required := false, default := some "-v" }

/-- Sample Function mirroring the spec's Scenario A ping Function. -/
def pingFunction : Function :=
  { description := "ping a host"
    parameters := [("target", sampleRequiredParam), ("opt", sampleOptionalParam)]
    execution := "ping -c 1 ${target} ${opt}" }

/-- Sample Page holding the ping Function. -/
def samplePage : Robopage :=
  { name := "Net", description := "network tools", categories := ["scan", "Web"]
    functions := [("ping", pingFunction)] }

/-- Sample Book holding the sample Page. -/
def sampleBook : Robook := ⟨[("net", samplePage)]⟩

/-- Sample execution environment: echoes the bound command, always
confirms. -/
def sampleEnv : ExecEnv :=
  { exec := fun cmd => .completed ("ran " ++ cmd) 0, confirm := fun _ _ => true }

end Robopages

namespace Robopages

/-- Helper: a response consumed into an argument entry is non-empty. -/
theorem collectOne_value_nonempty :
    ∀ (req : Bool) (responses : List String) (v : String) (rest : List String),
      collectOne req responses = some (some v, rest) → v ≠ "" := by
  intro req responses
  induction responses with
  | nil => intro v rest h; simp [collectOne] at h
  | cons x xs ih =>
    intro v rest h
    simp only [collectOne] at h
    by_cases hx : x ≠ ""
    · rw [if_pos hx] at h
      simp only [Option.some.injEq, Prod.mk.injEq, Option.some.injEq] at h
      obtain ⟨h1, h2⟩ := h
      subst h1
      exact hx
    · rw [if_neg hx] at h
      cases req with
      | true => exact ih v rest h
      | false => simp at h

/-- Helper: the prompt loop for a required parameter always produces a
value when it terminates. -/
theorem collectOne_required_some :
    ∀ (responses : List String) (e : Option String) (rest : List String),
      collectOne true responses = some (e, rest) → ∃ v, e = some v := by
  intro responses
  induction responses with
  | nil => intro e rest h; simp [collectOne] at h
  | cons x xs ih =>
    intro e rest h
    simp only [collectOne] at h
    by_cases hx : x ≠ ""
    · rw [if_pos hx] at h
      simp only [Option.some.injEq, Prod.mk.injEq] at h
      exact ⟨x, h.1.symm⟩
    · rw [if_neg hx] at h
      exact ih e rest (by simpa using h)

/-- Helper: every entry built by the collection loop is non-empty, and
every required parameter contributes an entry. -/
theorem collectArgs_entries :
    ∀ (ps : List (String × Parameter)) (responses : List String)
      (args : List (String × String)) (rest : List String),
      collectArgs ps responses = some (args, rest) →
      (∀ n v, (n, v) ∈ args → v ≠ "") ∧
      (∀ n p, (n, p) ∈ ps → p.required = true → ∃ v, (n, v) ∈ args) := by
  intro ps
  induction ps with
  | nil =>
    intro responses args rest h
    simp only [collectArgs, Option.some.injEq, Prod.mk.injEq] at h
    obtain ⟨h1, h2⟩ := h
    subst h1
    exact ⟨by simp, by simp⟩
  | cons np ps ih =>
    obtain ⟨pname, pparam⟩ := np
    intro responses args rest h
    simp only [collectArgs] at h
    split at h
    · cases h
    · rename_i entry responses1 h1
      split at h
      · cases h
      · rename_i args2 rest2 h2
        simp only [Option.some.injEq, Prod.mk.injEq] at h
        obtain ⟨h3, h4⟩ := h
        subst h3
        obtain ⟨iha, ihb⟩ := ih responses1 args2 rest2 h2
        constructor
        · intro n v hmem
          rw [List.mem_append] at hmem
          cases hmem with
          | inr hm => exact iha n v hm
          | inl hm =>
            cases entry with
            | none => simp at hm
            | some w =>
              simp only [List.mem_singleton, Prod.mk.injEq] at hm
              obtain ⟨hm1, hm2⟩ := hm
              subst hm2
              exact collectOne_value_nonempty pparam.required responses v responses1 h1
        · intro n p hmem hreq
          rw [List.mem_cons] at hmem
          cases hmem with
          | inr hm =>
            obtain ⟨v, hv⟩ := ihb n p hm hreq
            exact ⟨v, List.mem_append_right _ hv⟩
          | inl hm =>
            simp only [Prod.mk.injEq] at hm
            obtain ⟨hn1, hn2⟩ := hm
            subst hn1
            subst hn2
            rw [hreq] at h1
            obtain ⟨v, hv⟩ := collectOne_required_some responses entry responses1 h1
            subst hv
            exact ⟨v, List.mem_append_left _ (by simp)⟩

/-- C9: in the CLI single-call argument collection, the built mapping never
contains an empty-string value: every entered entry is non-empty, every
required parameter yields a non-empty entry, a required parameter is
re-prompted on an empty value, and an optional parameter given an empty
value is omitted from the mapping entirely. -/
theorem collect_args_invariants
    (ps : List (String × Parameter)) (responses : List String)
    (args : List (String × String)) (rest : List String)
    (h : collectArgs ps responses = some (args, rest)) :
    (∀ n v, (n, v) ∈ args → v ≠ "") ∧
    (∀ n p, (n, p) ∈ ps → p.required = true → ∃ v, (n, v) ∈ args ∧ v ≠ "") ∧
    (∀ (n : String) (p : Parameter) (ps2 : List (String × Parameter))
        (resp : List String), p.required = true →
      collectArgs ((n, p) :: ps2) ("" :: resp) = collectArgs ((n, p) :: ps2) resp) ∧
    (∀ (n : String) (p : Parameter) (ps2 : List (String × Parameter))
        (resp : List String), p.required = false →
      collectArgs ((n, p) :: ps2) ("" :: resp) = collectArgs ps2 resp) := by
  obtain ⟨ha, hb⟩ := collectArgs_entries ps responses args rest h
  refine ⟨ha, ?_, ?_, ?_⟩
  · intro n p hmem hreq
    obtain ⟨v, hv⟩ := hb n p hmem hreq
    exact ⟨v, hv, ha n v hv⟩
  · intro n p ps2 resp hreq
    simp only [collectArgs, collectOne, hreq]
    simp
  · intro n p ps2 resp hreq
    simp only [collectArgs, collectOne, hreq]
    simp only [ne_eq, not_true_eq_false, if_false, Bool.false_eq_true]
    cases collectArgs ps2 resp with
    | none => simp
    | some ar => simp

/-- C9 witness: concrete collection for the sample ping Function, where the
operator first enters an empty value for the required target. -/
theorem collect_args_invariants_witness :
    (∀ n v, (n, v) ∈ [("target", "127.0.0.1")] → v ≠ "") ∧
    (∀ n p, (n, p) ∈ pingFunction.parameters → p.required = true →
      ∃ v, (n, v) ∈ [("target", "127.0.0.1")] ∧ v ≠ "") ∧
    (∀ (n : String) (p : Parameter) (ps2 : List (String × Parameter))
        (resp : List String), p.required = true →
      collectArgs ((n, p) :: ps2) ("" :: resp) = collectArgs ((n, p) :: ps2) resp) ∧
    (∀ (n : String) (p : Parameter) (ps2 : List (String × Parameter))
        (resp : List String), p.required = false →
      collectArgs ((n, p) :: ps2) ("" :: resp) = collectArgs ps2 resp) :=
  collect_args_invariants pingFunction.parameters ["", "127.0.0.1", ""]
    [("target", "127.0.0.1")] [] (by decide)

/-- C1: for every ordered batch handed to the dispatcher, the Result
sequence has exactly the same length and order as the input — the j-th
Result is the dispatch of the j-th call — and dispatch is a total function
into Results, so no per-call failure raises to the caller of process. -/
theorem process_batch_shape (b : Robook) (env : ExecEnv)
    (calls : List Robocall) (interactive : Bool) :
    (b.process env calls interactive).length = calls.length ∧
    ∀ j : Nat, (b.process env calls interactive)[j]? =
      (calls[j]?).map (fun c => processOne env b interactive c) := by
  constructor
  · simp [Robook.process]
  · intro j
    simp [Robook.process]

/-- C2: a Robocall missing some required Parameter of its resolved Function
yields a Validation-error Result, uniformly in the execution environment —
so no external process is ever consulted for it. -/
theorem process_missing_required_validation
    (b : Robook) (interactive : Bool) (call : Robocall) (f : Function)
    (hf : b.find_function call.function.name = some f)
    (hmiss : ∃ n p, (n, p) ∈ f.parameters ∧ p.required = true ∧
      call.function.arguments.lookup n = none) :
    ∀ env : ExecEnv, processOne env b interactive call =
      ⟨"missing required parameter", .validationError⟩ := by
  intro env
  obtain ⟨n, p, hmem, hreq, hnone⟩ := hmiss
  have hval : validationFailed f call.function.arguments = true := by
    apply List.any_eq_true.mpr
    exact ⟨(n, p), hmem, by simp [hreq, hnone]⟩
  simp [processOne, hf, hval]

/-- C2 witness: dispatching the sample ping call without its required
target argument. -/
theorem process_missing_required_validation_witness :
    processOne sampleEnv sampleBook false ⟨⟨"ping", []⟩, none⟩ =
      ⟨"missing required parameter", .validationError⟩ :=
  process_missing_required_validation sampleBook false ⟨⟨"ping", []⟩, none⟩
    pingFunction (by decide)
    ⟨"target", sampleRequiredParam, by decide, by decide, by decide⟩ sampleEnv

/-- C3: every entry of the OpenAI translation of a loaded Book has type
equal to the string function and an object parameters type, and its
required list holds exactly the names of that Function's required-true
Parameters. -/
theorem to_openai_schema_shape (b : Robook) (tool : OpenAITool)
    (hmem : tool ∈ b.to_openai) :
    tool.type = "function" ∧ tool.function.parametersType = "object" ∧
    ∃ nf : String × Function, nf ∈ b.functions ∧
      tool = Function.to_openai nf.1 nf.2 ∧
      ∀ x : String, x ∈ tool.function.required ↔
        ∃ p : Parameter, (x, p) ∈ nf.2.parameters ∧ p.required = true := by
  simp only [Robook.to_openai, List.mem_map] at hmem
  obtain ⟨nf, hnf, htool⟩ := hmem
  subst htool
  refine ⟨rfl, rfl, nf, hnf, rfl, ?_⟩
  intro x
  constructor
  · intro hx
    simp only [Function.to_openai, List.mem_map, List.mem_filter] at hx
    obtain ⟨⟨a, p⟩, ⟨hmem2, hreq⟩, hx1⟩ := hx
    subst hx1
    exact ⟨p, hmem2, hreq⟩
  · rintro ⟨p, hmem2, hreq⟩
    simp only [Function.to_openai, List.mem_map, List.mem_filter]
    exact ⟨(x, p), ⟨hmem2, hreq⟩, rfl⟩

/-- C3 witness: the sample Book's translation of the ping Function is an
entry of the translated Book with the function type tag. -/
theorem to_openai_schema_shape_witness :
    (Function.to_openai "ping" pingFunction).type = "function" :=
  (to_openai_schema_shape sampleBook (Function.to_openai "ping" pingFunction)
    (by decide)).1

/-- C4 counterexample: at a concrete startup state the serve path passes no
Book to the Facade app as an explicit argument, and it does mutate the api
module's book attribute — refuting the dependency-injection claim. -/
theorem serve_injection_counterexample :
    (serve sampleBook ⟨none⟩ "127.0.0.1" 3000).2.appBookArg ≠ some sampleBook ∧
    (serve sampleBook ⟨none⟩ "127.0.0.1" 3000).1 ≠ ⟨none⟩ := by
  constructor
  · simp [serve]
  · simp [serve]

/-- C4 (amended): the serve path constructs the Book once and hands it to
the HTTP Facade by assigning it to the api module's module-level book
attribute (implicit module-level mutable state), passing no Book reference
explicitly to the server app. -/
theorem serve_module_state_handoff (loaded : Robook) (st : ApiModuleState)
    (address : String) (port : Nat) :
    (serve loaded st address port).1.book = some loaded ∧
    (serve loaded st address port).2.appBookArg = none :=
  ⟨rfl, rfl⟩

/-- C5: the CLI single-call path resolves exactly one Function,
interactively collects argument values, and hands the dispatcher a
one-element call batch with the interactive flag equal to the negation of
auto. -/
theorem run_single_call (env : ExecEnv) (book : Robook) (fname : String)
    (auto : Bool) (responses : List String) (f : Function)
    (args : List (String × String)) (rest : List String)
    (hf : book.find_function fname = some f)
    (hc : collectArgs f.parameters responses = some (args, rest)) :
    run env (.ok book) fname auto responses =
      .done { processed := some ([⟨⟨fname, args⟩, none⟩], !auto)
              results := some (book.process env [⟨⟨fname, args⟩, none⟩] (!auto))
              errorMsg := none } := by
  simp [run, run_body, hf, hc]

/-- C5 witness: running the sample ping function with auto set, the
dispatcher receives the one-element batch with interactive = not auto. -/
theorem run_single_call_witness :
    run sampleEnv (.ok sampleBook) "ping" true ["127.0.0.1", ""] =
      .done { processed := some ([⟨⟨"ping", [("target", "127.0.0.1")]⟩, none⟩], !true)
              results := some (sampleBook.process sampleEnv
                [⟨⟨"ping", [("target", "127.0.0.1")]⟩, none⟩] (!true))
              errorMsg := none } :=
  run_single_call sampleEnv sampleBook "ping" true ["127.0.0.1", ""] pingFunction
    [("target", "127.0.0.1")] [] (by decide) (by decide)

/-- C6: on the CLI single-call path an unknown function name makes the
invocation fail with a not-found error before the dispatcher is ever
invoked: no call batch is processed (uniformly in the execution
environment, so no external process is started). -/
theorem run_not_found_aborts (env : ExecEnv) (book : Robook) (fname : String)
    (auto : Bool) (responses : List String)
    (hf : book.find_function fname = none) :
    run env (.ok book) fname auto responses =
      .done { processed := none, results := none
              errorMsg := some ("function " ++ fname ++ " not found") } := by
  simp [run, run_body, hf]

/-- C6 witness: requesting a function absent from the sample Book. -/
theorem run_not_found_aborts_witness :
    run sampleEnv (.ok sampleBook) "nmap" false [] =
      .done { processed := none, results := none
              errorMsg := some ("function " ++ "nmap" ++ " not found") } :=
  run_not_found_aborts sampleEnv sampleBook "nmap" false [] (by decide)

/-- C7: load-time filtering is a case-insensitive substring match against
the Page name or any category label, and a filter matching no Page yields
an empty Book rather than an error. -/
theorem load_filter_semantics (flt : String) (page : Robopage)
    (pages : List (String × Robopage)) :
    (matchesFilter (some flt) page = true ↔
      (lowerList flt <:+: lowerList page.name ∨
        ∃ c ∈ page.categories, lowerList flt <:+: lowerList c)) ∧
    ((∀ kp ∈ pages, matchesFilter (some flt) kp.2 = false) →
      buildBook (some flt) pages = .ok ⟨[]⟩) := by
  constructor
  · simp [matchesFilter, containsCI, List.any_eq_true]
  · intro hnone
    have hkept : filterPages (some flt) pages = [] := by
      simp only [filterPages]
      rw [List.filter_eq_nil_iff]
      intro kp hkp
      simp [hnone kp hkp]
    simp [buildBook, hkept, allFunctionNames]

/-- C7 witness: a filter matching nothing in the sample registry builds the
empty Book. -/
theorem load_filter_semantics_witness :
    buildBook (some "zzz") [("net", samplePage)] = .ok ⟨[]⟩ :=
  (load_filter_semantics "zzz" samplePage [("net", samplePage)]).2 (by decide)

/-- C8: the CLI schema-dump command builds the Book, translates it with the
OpenAI dialect, serializes that translation, and the text saved to the
output file or printed equals the serialization of the translator's
output. -/
theorem to_json_serializes_translation (dumps : List OpenAITool → String)
    (flt : Option String) (pages : List (String × Robopage)) (book : Robook)
    (hb : buildBook flt pages = .ok book) :
    (∀ file : String, to_json dumps flt pages (some file) =
      .done (.savedToFile file (dumps book.to_openai))) ∧
    to_json dumps flt pages none = .done (.printedText (dumps book.to_openai)) := by
  constructor
  · intro file
    simp [to_json, hb]
  · simp [to_json, hb]

/-- C8 witness: dumping the sample registry prints the serialization of its
OpenAI translation. -/
theorem to_json_serializes_translation_witness :
    to_json (fun l => toString l.length) none [("net", samplePage)] none =
      .done (.printedText (toString sampleBook.to_openai.length)) :=
  (to_json_serializes_translation (fun l => toString l.length) none
    [("net", samplePage)] sampleBook (by rfl)).2

/-- C10: the CLI single-call command never propagates an exception: its
outcome is never a raised exception, and any error raised inside the try
body is rendered as a printed error message with a normal return. -/
theorem run_never_raises (env : ExecEnv) (loadResult : Except String Robook)
    (fname : String) (auto : Bool) (responses : List String) :
    (run env loadResult fname auto responses).isRaised = false ∧
    ∀ msg : String, run_body env loadResult fname auto responses = .raised msg →
      run env loadResult fname auto responses =
        .done { processed := none, results := none, errorMsg := some msg } := by
  constructor
  · cases hb : run_body env loadResult fname auto responses with
    | done r => simp [run, hb, PyOutcome.isRaised]
    | raised e => simp [run, hb, PyOutcome.isRaised]
    | blocked => simp [run, hb, PyOutcome.isRaised]
  · intro msg hb
    simp [run, hb]

/-- C10 witness: a failing Book load is caught and rendered as a printed
error message. -/
theorem run_never_raises_witness :
    run sampleEnv (.error "load failed") "ping" true [] =
      .done { processed := none, results := none, errorMsg := some "load failed" } :=
  (run_never_raises sampleEnv (.error "load failed") "ping" true []).2
    "load failed" (by rfl)

end Robopages
